import Mathlib

/-!
Shallow embedding of `src/orka_browser_fetch.py`, a batch fetcher that
downloads PDF reports through a browser-automation context.

The filesystem is modeled as an association list from path strings to
byte lists.  Each fetch attempt is driven by an environment record that
fixes how the browser and filesystem behave at every step of the attempt
(which calls raise, whether a download event fires and with which bytes),
and every attempt additionally records an event trace: page lifecycle,
arming of the download watcher, script evaluation, awaiting the download,
and filesystem mutations.  `Except.error` models a Python exception that
propagates out of the translated function.
-/

namespace OrkaFetch

/-- Byte buffers are lists of naturals (each below 256 in practice; the
value range is irrelevant to the properties proved below). -/
abbrev Bytes := List Nat

/-- The PDF magic signature `%PDF-` as bytes 37, 80, 68, 70, 45. -/
def pdfMagic : Bytes := [37, 80, 68, 70, 45]

/-- `is_pdf_bytes` from the source, line 26:
`bool(data and data[:5] == b"%PDF-")`.  An empty bytes object is falsy, so
the result is: the buffer is nonempty and its first five bytes equal the
signature.  Python slicing never raises on short buffers, mirrored here by
`List.take`. -/
def is_pdf_bytes (data : Bytes) : Bool :=
  !data.isEmpty && data.take 5 == pdfMagic

/-- The inline signature check at line 71 of the source
(`data[:5] == b"%PDF-"`), applied to the bytes read back from the
destination after saving. -/
def inline_sig_check (data : Bytes) : Bool :=
  data.take 5 == pdfMagic

/-- A filesystem: association list from paths to file contents. -/
abbrev FS := List (String × Bytes)

/-- Read a file; `none` when the path does not exist. -/
def FS.read : FS → String → Option Bytes
  | [], _ => none
  | (q, d) :: rest, p => if q = p then some d else FS.read rest p

/-- Remove a path (like `unlink(missing_ok=True)`: no error if absent). -/
def FS.remove : FS → String → FS
  | [], _ => []
  | (q, d) :: rest, p =>
      if q = p then FS.remove rest p else (q, d) :: FS.remove rest p

/-- Create or overwrite a file with the given bytes. -/
def FS.write (fs : FS) (p : String) (d : Bytes) : FS :=
  (p, d) :: FS.remove fs p

/-- `os.replace` semantics of `Path.replace`: atomically move `src` onto
`dst`, overwriting `dst`.  (The source only renames a file it has just
written, so the missing-source branch is never reached there.) -/
def FS.rename (fs : FS) (src dst : String) : FS :=
  match FS.read fs src with
  | some d => FS.write (FS.remove fs src) dst d
  | none => fs

/-- Events recorded during one fetch attempt, in execution order. -/
inductive Event where
  | pageOpen
  | gotoBlank
  | armDownload (timeoutMs : Nat)
  | evalTrigger (url : String)
  | awaitEvent
  | writeFile (p : String)
  | renameFile (src dst : String)
  | saveAs (p : String)
  | readFile (p : String)
  | unlinkFile (p : String)
  | pageClose
  deriving DecidableEq, Repr

/-- Number of events in a trace satisfying a predicate. -/
def countEv (f : Event → Bool) (tr : List Event) : Nat :=
  (tr.filter f).length

/-- The page-close event (the `finally` block's `temp.close()` call). -/
def isClose : Event → Bool
  | Event.pageClose => true
  | _ => false

/-- The page-open event (`ctx.new_page()`). -/
def isOpen : Event → Bool
  | Event.pageOpen => true
  | _ => false

/-- The await of the armed download watcher. -/
def isAwait : Event → Bool
  | Event.awaitEvent => true
  | _ => false

/-- An unlink of the given path. -/
def isUnlinkOf (p : String) : Event → Bool
  | Event.unlinkFile q => q == p
  | _ => false

/-- A staged-write event: a plain write (which `save_bytes` directs at the
`.part` sibling) or a rename promotion. -/
def isStagingWrite : Event → Bool
  | Event.writeFile _ => true
  | Event.renameFile _ _ => true
  | _ => false

/-- A direct `save_as` persist into the given path. -/
def isSaveAsTo (p : String) : Event → Bool
  | Event.saveAs q => q == p
  | _ => false

/-- Does an event mutate the given path? -/
def mutatesPath (p : String) : Event → Bool
  | Event.writeFile q => q == p
  | Event.saveAs q => q == p
  | Event.unlinkFile q => q == p
  | Event.renameFile _ q => q == p
  | _ => false

/-- Is the event a rename whose target is the given path? -/
def isRenameTo (p : String) : Event → Bool
  | Event.renameFile _ q => q == p
  | _ => false

/-- Every mutation of path `p` in the trace is a rename onto `p`. -/
def destMutatedOnlyByRename (p : String) (tr : List Event) : Bool :=
  tr.all fun e => !mutatesPath p e || isRenameTo p e

/-- Scans a trace with an "armed" flag: a trigger evaluation is allowed
only after a download watcher has been armed. -/
def armedBeforeTrigger : List Event → Bool → Bool
  | [], _ => true
  | Event.armDownload _ :: rest, _ => armedBeforeTrigger rest true
  | Event.evalTrigger _ :: rest, armed => armed && armedBeforeTrigger rest armed
  | _ :: rest, armed => armedBeforeTrigger rest armed

/-- Every download watcher armed in the trace uses timeout `t`. -/
def armTimeoutsAre (t : Nat) (tr : List Event) : Bool :=
  tr.all fun e =>
    match e with
    | Event.armDownload x => x == t
    | _ => true

/-- `dest.with_suffix(dest.suffix + ".part")` from line 30 of the source:
for the destination shapes the program builds (a name with one extension,
`{sid}.pdf`), replacing the suffix `s` by `s + ".part"` appends `".part"`
to the full filename. -/
def with_suffix_part (dest : String) : String := dest ++ ".part"

/-- `save_bytes` from the source, lines 29–32: write the bytes to the
`.part` staging sibling, then atomically promote it onto `dest` with
`Path.replace`.  Also returns the trace of filesystem events. -/
def save_bytes (fs : FS) (dest : String) (data : Bytes) : FS × List Event :=
  (FS.rename (FS.write fs (with_suffix_part dest) data) (with_suffix_part dest) dest,
   [Event.writeFile (with_suffix_part dest),
    Event.renameFile (with_suffix_part dest) dest])

/-- Behavior of the browser and filesystem during one attempt.  Each
`*Fails` flag makes the corresponding call raise.  `download` is `none`
when no download event fires within the timeout (Playwright raises its
timeout error) and `some data` when the event fires with those bytes.  A
failing `save_as` is modeled as raising before writing anything; the
swallowed failure of `temp.close()` in the `finally` block (`closeFails`)
changes neither the result nor the trace, exactly as in the source, where
it is caught by the inner bare `except`. -/
structure AttemptEnv where
  newPageFails : Bool
  gotoFails : Bool
  evalFails : Bool
  download : Option Bytes
  saveFails : Bool
  readFails : Bool
  closeFails : Bool

/-- `try_single_download` from the source, lines 34–89.  Returns the
Python return value (`Except.error` models an exception propagating out of
the function, which happens exactly when `ctx.new_page()` raises, since
that call at line 42 sits outside the `try` block), the resulting
filesystem, and the attempt's event trace.  Control flow: goto about:blank,
arm `expect_download`, evaluate the anchor-click trigger, await the event,
`dl.save_as` directly into `dest`, read the file back, check the `%PDF-`
prefix; on a failed check unlink `dest`; all exceptions after page
creation are caught and turned into a `False` return; the page close in
`finally` runs on every such path. -/
def try_single_download (env : AttemptEnv) (fs : FS) (url : String)
    (dest : String) (timeoutMs : Nat) :
    Except String Bool × FS × List Event :=
  if env.newPageFails then
    (Except.error "ctx.new_page raised", fs, [])
  else if env.gotoFails then
    (Except.ok false, fs, [Event.pageOpen, Event.gotoBlank, Event.pageClose])
  else if env.evalFails then
    (Except.ok false, fs,
      [Event.pageOpen, Event.gotoBlank, Event.armDownload timeoutMs,
       Event.evalTrigger url, Event.pageClose])
  else
    match env.download with
    | none =>
        (Except.ok false, fs,
          [Event.pageOpen, Event.gotoBlank, Event.armDownload timeoutMs,
           Event.evalTrigger url, Event.awaitEvent, Event.pageClose])
    | some data =>
        if env.saveFails then
          (Except.ok false, fs,
            [Event.pageOpen, Event.gotoBlank, Event.armDownload timeoutMs,
             Event.evalTrigger url, Event.awaitEvent, Event.saveAs dest,
             Event.pageClose])
        else
          let fs2 := FS.write fs dest data
          if env.readFails then
            (Except.ok false, fs2,
              [Event.pageOpen, Event.gotoBlank, Event.armDownload timeoutMs,
               Event.evalTrigger url, Event.awaitEvent, Event.saveAs dest,
               Event.readFile dest, Event.pageClose])
          else
            match FS.read fs2 dest with
            | none =>
                (Except.ok false, fs2,
                  [Event.pageOpen, Event.gotoBlank, Event.armDownload timeoutMs,
                   Event.evalTrigger url, Event.awaitEvent, Event.saveAs dest,
                   Event.readFile dest, Event.pageClose])
            | some d =>
                if inline_sig_check d then
                  (Except.ok true, fs2,
                    [Event.pageOpen, Event.gotoBlank, Event.armDownload timeoutMs,
                     Event.evalTrigger url, Event.awaitEvent, Event.saveAs dest,
                     Event.readFile dest, Event.pageClose])
                else
                  (Except.ok false, FS.remove fs2 dest,
                    [Event.pageOpen, Event.gotoBlank, Event.armDownload timeoutMs,
                     Event.evalTrigger url, Event.awaitEvent, Event.saveAs dest,
                     Event.readFile dest, Event.unlinkFile dest,
                     Event.pageClose])

/-- `build_url` from the source, lines 23–24. -/
def build_url (year : Int) (sid : String) : String :=
  "https://orka.sejm.gov.pl/rozlicz10.nsf/lista/" ++ toString year ++ sid ++
    "/%24File/" ++ toString year ++ "ryczalt_" ++ sid ++ ".pdf"

/-- The Domino fallback of line 142: the primary URL with `?Open`
appended. -/
def fallback_url (url : String) : String := url ++ "?Open"

/-- Modelled from the spec (section 6, URL pattern): the bit-exact shape
`https://{host}/lista/{year}{sid}/%24File/{year}ryczalt_{sid}.pdf` with
the host placeholder abstracted out, for comparison with `build_url`. -/
def urlPattern (host : String) (year : Int) (sid : String) : String :=
  "https://" ++ host ++ "/lista/" ++ toString year ++ sid ++ "/%24File/" ++
    toString year ++ "ryczalt_" ++ sid ++ ".pdf"

/-- The site base the URL placeholder instantiates to: the authority plus
the fixed Domino database segment `rozlicz10.nsf`. -/
def orkaHostBase : String := "orka.sejm.gov.pl/rozlicz10.nsf"

/-- `f"{i:0{width}d}"` for a nonnegative integer: decimal digits padded on
the left with zeros to the requested width (never truncated). -/
def zfill (width : Nat) (n : Nat) : String :=
  let s := toString n
  if s.length < width then
    String.mk (List.replicate (width - s.length) '0') ++ s
  else s

/-- `outdir / f"{sid}.pdf"` from line 131. -/
def destPath (outdir : String) (sid : String) : String :=
  outdir ++ "/" ++ sid ++ ".pdf"

/-- The skip rule at line 132: `dest.exists() and dest.stat().st_size > 200
and is_pdf_bytes(dest.read_bytes())`. -/
def skip_check (fs : FS) (dest : String) : Bool :=
  match FS.read fs dest with
  | some d => decide (200 < d.length) && is_pdf_bytes d
  | none => false

/-- The two attempt environments an id meets: primary URL attempt and
fallback URL attempt. -/
structure IdEnv where
  a1 : AttemptEnv
  a2 : AttemptEnv

/-- One iteration of the batch loop in `main`, lines 129–151: skip rule,
primary attempt, Domino fallback attempt only when the primary did not
return `True`, counter update.  Returns the new filesystem, the updated
counters, the list of URLs actually attempted, and the concatenated event
trace.  The inter-request sleep has no filesystem or trace effect and is
not modeled; a propagating attempt exception aborts the loop
(`Except.error`). -/
def processId (env : IdEnv) (year : Int) (sid outdir : String) (fs : FS)
    (ok miss : Nat) :
    Except String (FS × Nat × Nat × List String × List Event) :=
  let dest := destPath outdir sid
  if skip_check fs dest then
    Except.ok (fs, ok, miss, [], [])
  else
    let url := build_url year sid
    match try_single_download env.a1 fs url dest 60000 with
    | (Except.error e, _, _) => Except.error e
    | (Except.ok true, fs1, tr1) =>
        Except.ok (fs1, ok + 1, miss, [url], tr1)
    | (Except.ok false, fs1, tr1) =>
        match try_single_download env.a2 fs1 (fallback_url url) dest 60000 with
        | (Except.error e, _, _) => Except.error e
        | (Except.ok true, fs2, tr2) =>
            Except.ok (fs2, ok + 1, miss, [url, fallback_url url], tr1 ++ tr2)
        | (Except.ok false, fs2, tr2) =>
            Except.ok (fs2, ok, miss + 1, [url, fallback_url url], tr1 ++ tr2)

/-- The batch loop of `main` over an explicit id list (the source iterates
`range(start_id, max_id + 1)`), threading the filesystem and the
`ok`/`miss` counters and concatenating the attempt traces. -/
def runBatch (envOf : Nat → IdEnv) (year : Int) (w : Nat) (outdir : String)
    (ids : List Nat) (fs : FS) (ok miss : Nat) :
    Except String (FS × Nat × Nat × List Event) :=
  match ids with
  | [] => Except.ok (fs, ok, miss, [])
  | i :: rest =>
      match processId (envOf i) year (zfill w i) outdir fs ok miss with
      | Except.error e => Except.error e
      | Except.ok (fs1, ok1, miss1, _, tr1) =>
          match runBatch envOf year w outdir rest fs1 ok1 miss1 with
          | Except.error e => Except.error e
          | Except.ok (fs2, ok2, miss2, tr2) =>
              Except.ok (fs2, ok2, miss2, tr1 ++ tr2)

/-- Sample valid PDF bytes (`%PDF-1.4`). -/
def samplePdf : Bytes := [37, 80, 68, 70, 45, 49, 46, 52]

/-- Sample non-PDF bytes (`<html>`). -/
def sampleHtml : Bytes := [60, 104, 116, 109, 108, 62]

/-- A valid PDF shorter than the 201-byte skip threshold: the bare
signature. -/
def smallPdf : Bytes := pdfMagic

/-- A valid PDF longer than the 200-byte skip threshold. -/
def bigPdf : Bytes := pdfMagic ++ List.replicate 200 32

/-- Attempt in which everything succeeds and the download yields a valid
PDF. -/
def envAllOk : AttemptEnv := ⟨false, false, false, some samplePdf, false, false, false⟩

/-- Attempt in which no download event fires within the timeout. -/
def envTimeout : AttemptEnv := ⟨false, false, false, none, false, false, false⟩

/-- Attempt in which `ctx.new_page()` itself raises. -/
def envNewPageFail : AttemptEnv := ⟨true, false, false, none, false, false, false⟩

/-- Attempt whose download yields bytes failing the signature check. -/
def envBadSig : AttemptEnv := ⟨false, false, false, some sampleHtml, false, false, false⟩

/-- Attempt whose download yields a valid PDF of only five bytes. -/
def envSmallPdf : AttemptEnv := ⟨false, false, false, some smallPdf, false, false, false⟩

/-- Per-id environment: both attempts time out. -/
def idEnvTimeout : IdEnv := ⟨envTimeout, envTimeout⟩

/-- Per-id environment: the primary attempt downloads a small valid PDF. -/
def idEnvSmall : IdEnv := ⟨envSmallPdf, envTimeout⟩

/-- Constant batch environment where every id times out twice. -/
def constEnvTimeout : Nat → IdEnv := fun _ => idEnvTimeout

/-- Constant batch environment where every id downloads a small valid
PDF on the primary attempt. -/
def constEnvSmall : Nat → IdEnv := fun _ => idEnvSmall

/-- Filesystem already holding a valid, over-threshold file for id 001. -/
def fsBig : FS := [("out/001.pdf", bigPdf)]

/-- The event trace of a one-id batch whose primary attempt downloads a
small valid PDF. -/
def smallRunTrace : List Event :=
  [Event.pageOpen, Event.gotoBlank, Event.armDownload 60000,
   Event.evalTrigger (build_url 2024 "001"), Event.awaitEvent,
   Event.saveAs "out/001.pdf", Event.readFile "out/001.pdf",
   Event.pageClose]

/-- Does the attempt environment drive `try_single_download` into the
validation-failure branch: the page opens, navigation, trigger evaluation,
save and read-back all succeed, the download event fires, and the bytes
read back fail the inline signature check? -/
def validationFailureSeen (env : AttemptEnv) : Bool :=
  !env.newPageFails && !env.gotoFails && !env.evalFails &&
    !env.saveFails && !env.readFails &&
    (match env.download with
     | some d => !inline_sig_check d
     | none => false)

theorem FS.read_write (fs : FS) (p : String) (d : Bytes) :
    FS.read (FS.write fs p d) p = some d := by
  simp [FS.read, FS.write]

theorem FS.read_remove (fs : FS) (p : String) :
    FS.read (FS.remove fs p) p = none := by
  induction fs with
  | nil => rfl
  | cons e rest ih =>
      obtain ⟨q, d⟩ := e
      by_cases hq : q = p
      · simpa [FS.remove, hq] using ih
      · simpa [FS.remove, FS.read, hq] using ih

theorem FS.read_remove_ne (fs : FS) (p q : String) (h : q ≠ p) :
    FS.read (FS.remove fs p) q = FS.read fs q := by
  induction fs with
  | nil => rfl
  | cons e rest ih =>
      obtain ⟨r, d⟩ := e
      by_cases hr : r = p
      · simp [FS.remove, FS.read, hr, Ne.symm h, ih]
      · simp only [FS.remove, hr, if_false, FS.read]
        by_cases hq : r = q
        · simp [hq]
        · simp [hq, ih]

theorem FS.read_write_ne (fs : FS) (p q : String) (d : Bytes) (h : q ≠ p) :
    FS.read (FS.write fs p d) q = FS.read fs q := by
  simp [FS.write, FS.read, Ne.symm h, FS.read_remove_ne fs p q h]

theorem with_suffix_part_ne (dest : String) : with_suffix_part dest ≠ dest := by
  intro h
  have hlen : (with_suffix_part dest).data.length = dest.data.length :=
    congrArg (fun s => s.data.length) h
  have hd : (with_suffix_part dest).data.length = dest.data.length + 5 := by
    have he : (with_suffix_part dest).data = dest.data ++ ".part".data := rfl
    rw [he, List.length_append]
    rfl
  omega

theorem with_suffix_part_beq (dest : String) :
    (with_suffix_part dest == dest) = false :=
  beq_eq_false_iff_ne.mpr (with_suffix_part_ne dest)

theorem try_eq_newPage (env : AttemptEnv) (fs : FS) (url dest : String)
    (t : Nat) (h : env.newPageFails = true) :
    try_single_download env fs url dest t =
      (Except.error "ctx.new_page raised", fs, []) := by
  simp [try_single_download, h]

theorem try_eq_goto (env : AttemptEnv) (fs : FS) (url dest : String) (t : Nat)
    (h1 : env.newPageFails = false) (h2 : env.gotoFails = true) :
    try_single_download env fs url dest t =
      (Except.ok false, fs,
        [Event.pageOpen, Event.gotoBlank, Event.pageClose]) := by
  simp [try_single_download, h1, h2]

theorem try_eq_eval (env : AttemptEnv) (fs : FS) (url dest : String) (t : Nat)
    (h1 : env.newPageFails = false) (h2 : env.gotoFails = false)
    (h3 : env.evalFails = true) :
    try_single_download env fs url dest t =
      (Except.ok false, fs,
        [Event.pageOpen, Event.gotoBlank, Event.armDownload t,
         Event.evalTrigger url, Event.pageClose]) := by
  simp [try_single_download, h1, h2, h3]

theorem try_eq_timeout (env : AttemptEnv) (fs : FS) (url dest : String) (t : Nat)
    (h1 : env.newPageFails = false) (h2 : env.gotoFails = false)
    (h3 : env.evalFails = false) (h4 : env.download = none) :
    try_single_download env fs url dest t =
      (Except.ok false, fs,
        [Event.pageOpen, Event.gotoBlank, Event.armDownload t,
         Event.evalTrigger url, Event.awaitEvent, Event.pageClose]) := by
  simp [try_single_download, h1, h2, h3, h4]

theorem try_eq_saveFail (env : AttemptEnv) (fs : FS) (url dest : String)
    (t : Nat) (data : Bytes)
    (h1 : env.newPageFails = false) (h2 : env.gotoFails = false)
    (h3 : env.evalFails = false) (h4 : env.download = some data)
    (h5 : env.saveFails = true) :
    try_single_download env fs url dest t =
      (Except.ok false, fs,
        [Event.pageOpen, Event.gotoBlank, Event.armDownload t,
         Event.evalTrigger url, Event.awaitEvent, Event.saveAs dest,
         Event.pageClose]) := by
  simp [try_single_download, h1, h2, h3, h4, h5]

theorem try_eq_readFail (env : AttemptEnv) (fs : FS) (url dest : String)
    (t : Nat) (data : Bytes)
    (h1 : env.newPageFails = false) (h2 : env.gotoFails = false)
    (h3 : env.evalFails = false) (h4 : env.download = some data)
    (h5 : env.saveFails = false) (h6 : env.readFails = true) :
    try_single_download env fs url dest t =
      (Except.ok false, FS.write fs dest data,
        [Event.pageOpen, Event.gotoBlank, Event.armDownload t,
         Event.evalTrigger url, Event.awaitEvent, Event.saveAs dest,
         Event.readFile dest, Event.pageClose]) := by
  simp [try_single_download, h1, h2, h3, h4, h5, h6]

theorem try_eq_sigOk (env : AttemptEnv) (fs : FS) (url dest : String)
    (t : Nat) (data : Bytes)
    (h1 : env.newPageFails = false) (h2 : env.gotoFails = false)
    (h3 : env.evalFails = false) (h4 : env.download = some data)
    (h5 : env.saveFails = false) (h6 : env.readFails = false)
    (h7 : inline_sig_check data = true) :
    try_single_download env fs url dest t =
      (Except.ok true, FS.write fs dest data,
        [Event.pageOpen, Event.gotoBlank, Event.armDownload t,
         Event.evalTrigger url, Event.awaitEvent, Event.saveAs dest,
         Event.readFile dest, Event.pageClose]) := by
  simp [try_single_download, h1, h2, h3, h4, h5, h6, FS.read_write, h7]

theorem try_eq_sigBad (env : AttemptEnv) (fs : FS) (url dest : String)
    (t : Nat) (data : Bytes)
    (h1 : env.newPageFails = false) (h2 : env.gotoFails = false)
    (h3 : env.evalFails = false) (h4 : env.download = some data)
    (h5 : env.saveFails = false) (h6 : env.readFails = false)
    (h7 : inline_sig_check data = false) :
    try_single_download env fs url dest t =
      (Except.ok false, FS.remove (FS.write fs dest data) dest,
        [Event.pageOpen, Event.gotoBlank, Event.armDownload t,
         Event.evalTrigger url, Event.awaitEvent, Event.saveAs dest,
         Event.readFile dest, Event.unlinkFile dest, Event.pageClose]) := by
  simp [try_single_download, h1, h2, h3, h4, h5, h6, FS.read_write, h7]

theorem attempt_total (env : AttemptEnv) (fs : FS) (url dest : String)
    (t : Nat) (h : env.newPageFails = false) :
    ∃ b fsf tr,
      try_single_download env fs url dest t = (Except.ok b, fsf, tr) := by
  cases hgf : env.gotoFails with
  | true => exact ⟨_, _, _, try_eq_goto env fs url dest t h hgf⟩
  | false =>
      cases hef : env.evalFails with
      | true => exact ⟨_, _, _, try_eq_eval env fs url dest t h hgf hef⟩
      | false =>
          cases hdl : env.download with
          | none => exact ⟨_, _, _, try_eq_timeout env fs url dest t h hgf hef hdl⟩
          | some data =>
              cases hsf : env.saveFails with
              | true =>
                  exact ⟨_, _, _, try_eq_saveFail env fs url dest t data h hgf hef hdl hsf⟩
              | false =>
                  cases hrf : env.readFails with
                  | true =>
                      exact ⟨_, _, _,
                        try_eq_readFail env fs url dest t data h hgf hef hdl hsf hrf⟩
                  | false =>
                      cases hsig : inline_sig_check data with
                      | true =>
                          exact ⟨_, _, _,
                            try_eq_sigOk env fs url dest t data h hgf hef hdl hsf hrf hsig⟩
                      | false =>
                          exact ⟨_, _, _,
                            try_eq_sigBad env fs url dest t data h hgf hef hdl hsf hrf hsig⟩

theorem trace_enum (env : AttemptEnv) (fs : FS) (url dest : String) (t : Nat)
    (h : env.newPageFails = false) :
    (try_single_download env fs url dest t).2.2 =
        [Event.pageOpen, Event.gotoBlank, Event.pageClose] ∨
    (try_single_download env fs url dest t).2.2 =
        [Event.pageOpen, Event.gotoBlank, Event.armDownload t,
         Event.evalTrigger url, Event.pageClose] ∨
    (try_single_download env fs url dest t).2.2 =
        [Event.pageOpen, Event.gotoBlank, Event.armDownload t,
         Event.evalTrigger url, Event.awaitEvent, Event.pageClose] ∨
    (try_single_download env fs url dest t).2.2 =
        [Event.pageOpen, Event.gotoBlank, Event.armDownload t,
         Event.evalTrigger url, Event.awaitEvent, Event.saveAs dest,
         Event.pageClose] ∨
    (try_single_download env fs url dest t).2.2 =
        [Event.pageOpen, Event.gotoBlank, Event.armDownload t,
         Event.evalTrigger url, Event.awaitEvent, Event.saveAs dest,
         Event.readFile dest, Event.pageClose] ∨
    (try_single_download env fs url dest t).2.2 =
        [Event.pageOpen, Event.gotoBlank, Event.armDownload t,
         Event.evalTrigger url, Event.awaitEvent, Event.saveAs dest,
         Event.readFile dest, Event.unlinkFile dest, Event.pageClose] := by
  cases hgf : env.gotoFails with
  | true => exact Or.inl (by rw [try_eq_goto env fs url dest t h hgf])
  | false =>
      cases hef : env.evalFails with
      | true =>
          exact Or.inr (Or.inl (by rw [try_eq_eval env fs url dest t h hgf hef]))
      | false =>
          cases hdl : env.download with
          | none =>
              exact Or.inr (Or.inr (Or.inl
                (by rw [try_eq_timeout env fs url dest t h hgf hef hdl])))
          | some data =>
              cases hsf : env.saveFails with
              | true =>
                  exact Or.inr (Or.inr (Or.inr (Or.inl
                    (by rw [try_eq_saveFail env fs url dest t data h hgf hef hdl hsf]))))
              | false =>
                  cases hrf : env.readFails with
                  | true =>
                      exact Or.inr (Or.inr (Or.inr (Or.inr (Or.inl
                        (by rw [try_eq_readFail env fs url dest t data h hgf hef hdl hsf hrf])))))
                  | false =>
                      cases hsig : inline_sig_check data with
                      | true =>
                          exact Or.inr (Or.inr (Or.inr (Or.inr (Or.inl
                            (by rw [try_eq_sigOk env fs url dest t data h hgf hef hdl hsf hrf hsig])))))
                      | false =>
                          exact Or.inr (Or.inr (Or.inr (Or.inr (Or.inr
                            (by rw [try_eq_sigBad env fs url dest t data h hgf hef hdl hsf hrf hsig])))))

/-- C4: for every byte buffer `b`, `is_pdf_bytes b` is true iff `b` is
nonempty and its first five bytes equal the `%PDF-` signature; every
buffer shorter than five bytes is rejected.  The function is total, so no
indexing error can occur. -/
theorem validator_signature_iff (b : Bytes) :
    (is_pdf_bytes b = true ↔ b ≠ [] ∧ b.take 5 = pdfMagic) ∧
    (b.length < 5 → is_pdf_bytes b = false) := by
  constructor
  · simp [is_pdf_bytes]
  · intro h
    have hne : b.take 5 ≠ pdfMagic := by
      intro he
      have hl := congrArg List.length he
      rw [List.length_take] at hl
      simp [pdfMagic] at hl
      omega
    simp [is_pdf_bytes, hne]

/-- Witness for C4 at the concrete two-byte buffer `[37, 80]`. -/
theorem validator_signature_iff_witness :
    (is_pdf_bytes [37, 80] = true ↔
      [37, 80] ≠ ([] : Bytes) ∧ List.take 5 [37, 80] = pdfMagic) ∧
    (List.length [37, 80] < 5 → is_pdf_bytes [37, 80] = false) :=
  validator_signature_iff [37, 80]

/-- C9: for every year and zero-padded sequence id, the primary URL built
by `build_url` is bit-exactly the pattern
`https://{host}/lista/{year}{sid}/%24File/{year}ryczalt_{sid}.pdf` with
the host placeholder instantiated to the site base
`orka.sejm.gov.pl/rozlicz10.nsf` (the authority plus the fixed Domino
database path segment), and the fallback URL is bit-exactly the primary
URL with the literal `?Open` appended. -/
theorem url_pattern_bit_exact (year : Int) (sid : String) :
    build_url year sid = urlPattern orkaHostBase year sid ∧
    fallback_url (build_url year sid) =
      urlPattern orkaHostBase year sid ++ "?Open" :=
  ⟨rfl, rfl⟩

/-- C10: the inline post-persist signature check of line 71 accepts
exactly the same buffers as `is_pdf_bytes`, including agreeing (both
reject) on the empty buffer. -/
theorem inline_check_agrees_validator (b : Bytes) :
    inline_sig_check b = is_pdf_bytes b := by
  cases b with
  | nil => rfl
  | cons x xs => simp [inline_sig_check, is_pdf_bytes]

/-- C1 counterexample: on a fully successful attempt the downloaded bytes
are persisted by `dl.save_as` directly into the destination path; the
trace contains no staging write and no rename, so the final path is
mutated by a direct write, not only by a rename. -/
theorem staging_bypassed_cex :
    (try_single_download envAllOk [] "u" "d.pdf" 60000).1 = Except.ok true ∧
    countEv isStagingWrite
      (try_single_download envAllOk [] "u" "d.pdf" 60000).2.2 = 0 ∧
    destMutatedOnlyByRename "d.pdf"
      (try_single_download envAllOk [] "u" "d.pdf" 60000).2.2 = false :=
  ⟨rfl, rfl, rfl⟩

/-- C2 counterexample: an exception raised by `ctx.new_page()` — the
opening of the disposable page, step 1 — is not caught by
`try_single_download` (the call sits outside the `try` block) and
propagates to the batch loop. -/
theorem new_page_exception_cex :
    (try_single_download envNewPageFail [] "u" "d.pdf" 60000).1 =
      Except.error "ctx.new_page raised" :=
  rfl

/-- C3 counterexample: an attempt that terminates in an exception (here a
download timeout) performs no removal: a non-valid file already present
at the destination path survives the attempt. -/
theorem exception_leaves_destination_cex :
    (try_single_download envTimeout [("out/001.pdf", sampleHtml)] "u"
        "out/001.pdf" 60000).1 = Except.ok false ∧
    FS.read (try_single_download envTimeout [("out/001.pdf", sampleHtml)]
        "u" "out/001.pdf" 60000).2.1 "out/001.pdf" = some sampleHtml ∧
    is_pdf_bytes sampleHtml = false :=
  ⟨rfl, rfl, rfl⟩

/-- C6 counterexample: a first run whose download yields a valid PDF of
only five bytes persists it, but the stored file fails the over-200-bytes
skip threshold, so a second run over the same id with the same network
behavior attempts again and performs an additional write (a `save_as`
into the final path), refuting the claim that a second run performs no
additional writes. -/
theorem second_run_write_cex :
    runBatch constEnvSmall 2024 3 "out" [1] [] 0 0 =
      Except.ok ([("out/001.pdf", smallPdf)], 1, 0, smallRunTrace) ∧
    runBatch constEnvSmall 2024 3 "out" [1] [("out/001.pdf", smallPdf)] 0 0 =
      Except.ok ([("out/001.pdf", smallPdf)], 1, 0, smallRunTrace) ∧
    countEv (isSaveAsTo (destPath "out" (zfill 3 1))) smallRunTrace = 1 :=
  ⟨rfl, rfl, rfl⟩

theorem save_bytes_stages (fs : FS) (dest : String) (data : Bytes) :
    FS.read (save_bytes fs dest data).1 dest = some data ∧
    FS.read (save_bytes fs dest data).1 (with_suffix_part dest) = none := by
  have hre : (save_bytes fs dest data).1 =
      FS.write (FS.remove (FS.write fs (with_suffix_part dest) data)
        (with_suffix_part dest)) dest data := by
    simp [save_bytes, FS.rename, FS.read_write]
  rw [hre]
  constructor
  · exact FS.read_write _ _ _
  · rw [FS.read_write_ne _ _ _ _ (with_suffix_part_ne dest), FS.read_remove]

/-- C1 amended: `save_bytes` does satisfy the staged-write contract — it
writes the bytes to the sibling path `dest + ".part"`, promotes them onto
the destination only by the rename, leaves no staging file, and its only
mutation of the destination is the rename — but `try_single_download`
never routes through it: on a successful download event the bytes are
persisted by the handle's own `save_as` directly into the destination
path (exactly one direct write, no staging write or rename anywhere in
the attempt), so the direct write, not a rename, is the mutation point of
the final path. -/
theorem staging_contract_amended (env : AttemptEnv) (fs : FS)
    (url dest : String) (data : Bytes) (t : Nat) :
    (save_bytes fs dest data).2 =
        [Event.writeFile (with_suffix_part dest),
         Event.renameFile (with_suffix_part dest) dest] ∧
    FS.read (save_bytes fs dest data).1 dest = some data ∧
    FS.read (save_bytes fs dest data).1 (with_suffix_part dest) = none ∧
    destMutatedOnlyByRename dest (save_bytes fs dest data).2 = true ∧
    countEv isStagingWrite (try_single_download env fs url dest t).2.2 = 0 ∧
    ((try_single_download env fs url dest t).1 = Except.ok true →
      countEv (isSaveAsTo dest) (try_single_download env fs url dest t).2.2 = 1) := by
  refine ⟨rfl, (save_bytes_stages fs dest data).1,
    (save_bytes_stages fs dest data).2, ?_, ?_, ?_⟩
  · simp [save_bytes, destMutatedOnlyByRename, mutatesPath, isRenameTo,
      with_suffix_part_beq]
  · cases hnp : env.newPageFails with
    | true =>
        rw [try_eq_newPage env fs url dest t hnp]
        rfl
    | false =>
        rcases trace_enum env fs url dest t hnp with h1 | h1 | h1 | h1 | h1 | h1 <;>
          rw [h1] <;> rfl
  · intro hres
    cases hnp : env.newPageFails with
    | true =>
        rw [try_eq_newPage env fs url dest t hnp] at hres
        simp at hres
    | false =>
        cases hgf : env.gotoFails with
        | true =>
            rw [try_eq_goto env fs url dest t hnp hgf] at hres
            simp at hres
        | false =>
            cases hef : env.evalFails with
            | true =>
                rw [try_eq_eval env fs url dest t hnp hgf hef] at hres
                simp at hres
            | false =>
                cases hdl : env.download with
                | none =>
                    rw [try_eq_timeout env fs url dest t hnp hgf hef hdl] at hres
                    simp at hres
                | some data' =>
                    cases hsf : env.saveFails with
                    | true =>
                        rw [try_eq_saveFail env fs url dest t data' hnp hgf hef hdl hsf] at hres
                        simp at hres
                    | false =>
                        cases hrf : env.readFails with
                        | true =>
                            rw [try_eq_readFail env fs url dest t data' hnp hgf hef hdl hsf hrf] at hres
                            simp at hres
                        | false =>
                            cases hsig : inline_sig_check data' with
                            | true =>
                                rw [try_eq_sigOk env fs url dest t data' hnp hgf hef hdl hsf hrf hsig]
                                simp [countEv, isSaveAsTo]
                            | false =>
                                rw [try_eq_sigBad env fs url dest t data' hnp hgf hef hdl hsf hrf hsig] at hres
                                simp at hres

/-- Witness for C1 amended at a concrete successful attempt. -/
theorem staging_contract_amended_witness :
    (save_bytes [] "d.pdf" samplePdf).2 =
        [Event.writeFile (with_suffix_part "d.pdf"),
         Event.renameFile (with_suffix_part "d.pdf") "d.pdf"] ∧
    FS.read (save_bytes [] "d.pdf" samplePdf).1 "d.pdf" = some samplePdf ∧
    FS.read (save_bytes [] "d.pdf" samplePdf).1 (with_suffix_part "d.pdf") = none ∧
    destMutatedOnlyByRename "d.pdf" (save_bytes [] "d.pdf" samplePdf).2 = true ∧
    countEv isStagingWrite (try_single_download envAllOk [] "u" "d.pdf" 60000).2.2 = 0 ∧
    ((try_single_download envAllOk [] "u" "d.pdf" 60000).1 = Except.ok true →
      countEv (isSaveAsTo "d.pdf")
        (try_single_download envAllOk [] "u" "d.pdf" 60000).2.2 = 1) :=
  staging_contract_amended envAllOk [] "u" "d.pdf" samplePdf 60000

/-- C2 amended: once the disposable page has been created, every
exception raised in the remaining steps (navigating the page, evaluating
the trigger script, awaiting the download, saving or reading back the
bytes) is caught by `try_single_download` and converted into a `False`
failure outcome, never propagated; but an exception raised by
`ctx.new_page()` itself — the opening of the disposable page — is outside
the `try` block and does propagate to the batch loop. -/
theorem exception_isolation_amended (env : AttemptEnv) (fs : FS)
    (url dest : String) (t : Nat) (h : env.newPageFails = false) :
    (∃ b, (try_single_download env fs url dest t).1 = Except.ok b) ∧
    ((env.gotoFails = true ∨ env.evalFails = true ∨ env.download = none ∨
        env.saveFails = true ∨ env.readFails = true) →
      (try_single_download env fs url dest t).1 = Except.ok false) := by
  constructor
  · obtain ⟨b, fsf, tr, he⟩ := attempt_total env fs url dest t h
    exact ⟨b, by rw [he]⟩
  · intro hd
    cases hgf : env.gotoFails with
    | true => rw [try_eq_goto env fs url dest t h hgf]
    | false =>
        cases hef : env.evalFails with
        | true => rw [try_eq_eval env fs url dest t h hgf hef]
        | false =>
            cases hdl : env.download with
            | none => rw [try_eq_timeout env fs url dest t h hgf hef hdl]
            | some data =>
                cases hsf : env.saveFails with
                | true => rw [try_eq_saveFail env fs url dest t data h hgf hef hdl hsf]
                | false =>
                    cases hrf : env.readFails with
                    | true => rw [try_eq_readFail env fs url dest t data h hgf hef hdl hsf hrf]
                    | false =>
                        rcases hd with h' | h' | h' | h' | h' <;>
                          simp [hgf, hef, hdl, hsf, hrf] at h'

/-- Witness for C2 amended at a concrete timed-out attempt. -/
theorem exception_isolation_amended_witness :
    envTimeout.newPageFails = false ∧
    ((∃ b, (try_single_download envTimeout [] "u" "d.pdf" 60000).1 = Except.ok b) ∧
     ((envTimeout.gotoFails = true ∨ envTimeout.evalFails = true ∨
         envTimeout.download = none ∨ envTimeout.saveFails = true ∨
         envTimeout.readFails = true) →
       (try_single_download envTimeout [] "u" "d.pdf" 60000).1 = Except.ok false)) :=
  ⟨rfl, exception_isolation_amended envTimeout [] "u" "d.pdf" 60000 rfl⟩

/-- C3 amended: the destination is removed exactly when the attempt
terminates in validation failure (bytes read back fail the signature
check); an attempt that terminates in an exception — navigation or
trigger-evaluation failure, download timeout, save or read-back failure —
performs no removal, so a non-valid file already present at the final
path before such an attempt survives it (in particular, a timed-out
attempt leaves the filesystem untouched). -/
theorem removal_policy_amended (env : AttemptEnv) (fs : FS)
    (url dest : String) (t : Nat) (h : env.newPageFails = false) :
    countEv (isUnlinkOf dest) (try_single_download env fs url dest t).2.2 =
      (if validationFailureSeen env then 1 else 0) ∧
    (validationFailureSeen env = true →
      FS.read (try_single_download env fs url dest t).2.1 dest = none) ∧
    (env.download = none → (try_single_download env fs url dest t).2.1 = fs) := by
  refine ⟨?_, ?_, ?_⟩
  · cases hgf : env.gotoFails with
    | true =>
        rw [try_eq_goto env fs url dest t h hgf]
        simp [validationFailureSeen, h, hgf, countEv, isUnlinkOf]
    | false =>
        cases hef : env.evalFails with
        | true =>
            rw [try_eq_eval env fs url dest t h hgf hef]
            simp [validationFailureSeen, h, hgf, hef, countEv, isUnlinkOf]
        | false =>
            cases hdl : env.download with
            | none =>
                rw [try_eq_timeout env fs url dest t h hgf hef hdl]
                simp [validationFailureSeen, h, hgf, hef, hdl, countEv, isUnlinkOf]
            | some data =>
                cases hsf : env.saveFails with
                | true =>
                    rw [try_eq_saveFail env fs url dest t data h hgf hef hdl hsf]
                    simp [validationFailureSeen, h, hgf, hef, hdl, hsf, countEv, isUnlinkOf]
                | false =>
                    cases hrf : env.readFails with
                    | true =>
                        rw [try_eq_readFail env fs url dest t data h hgf hef hdl hsf hrf]
                        simp [validationFailureSeen, h, hgf, hef, hdl, hsf, hrf,
                          countEv, isUnlinkOf]
                    | false =>
                        cases hsig : inline_sig_check data with
                        | true =>
                            rw [try_eq_sigOk env fs url dest t data h hgf hef hdl hsf hrf hsig]
                            simp [validationFailureSeen, h, hgf, hef, hdl, hsf, hrf,
                              hsig, countEv, isUnlinkOf]
                        | false =>
                            rw [try_eq_sigBad env fs url dest t data h hgf hef hdl hsf hrf hsig]
                            simp [validationFailureSeen, h, hgf, hef, hdl, hsf, hrf,
                              hsig, countEv, isUnlinkOf]
  · intro hv
    cases hgf : env.gotoFails with
    | true => simp [validationFailureSeen, hgf] at hv
    | false =>
        cases hef : env.evalFails with
        | true => simp [validationFailureSeen, hef] at hv
        | false =>
            cases hdl : env.download with
            | none => simp [validationFailureSeen, hdl] at hv
            | some data =>
                cases hsf : env.saveFails with
                | true => simp [validationFailureSeen, hsf] at hv
                | false =>
                    cases hrf : env.readFails with
                    | true => simp [validationFailureSeen, hrf] at hv
                    | false =>
                        cases hsig : inline_sig_check data with
                        | true =>
                            simp [validationFailureSeen, h, hgf, hef, hdl, hsf, hrf,
                              hsig] at hv
                        | false =>
                            rw [try_eq_sigBad env fs url dest t data h hgf hef hdl hsf hrf hsig]
                            exact FS.read_remove _ _
  · intro hdl
    cases hgf : env.gotoFails with
    | true =>
        rw [try_eq_goto env fs url dest t h hgf]
    | false =>
        cases hef : env.evalFails with
        | true => rw [try_eq_eval env fs url dest t h hgf hef]
        | false => rw [try_eq_timeout env fs url dest t h hgf hef hdl]

/-- Witness for C3 amended at a concrete attempt whose download yields
non-PDF bytes. -/
theorem removal_policy_amended_witness :
    envBadSig.newPageFails = false ∧
    (countEv (isUnlinkOf "d.pdf")
        (try_single_download envBadSig [] "u" "d.pdf" 60000).2.2 =
      (if validationFailureSeen envBadSig then 1 else 0) ∧
     (validationFailureSeen envBadSig = true →
       FS.read (try_single_download envBadSig [] "u" "d.pdf" 60000).2.1 "d.pdf" = none) ∧
     (envBadSig.download = none →
       (try_single_download envBadSig [] "u" "d.pdf" 60000).2.1 = [])) :=
  ⟨rfl, removal_policy_amended envBadSig [] "u" "d.pdf" 60000 rfl⟩

/-- C7: for every attempt in which the disposable page is created (page
creation does not raise), the attempt's trace contains exactly one page
close and exactly one page open, on every exit path — normal success,
validation rejection, and every caught exception. -/
theorem page_cleanup_exactly_once (env : AttemptEnv) (fs : FS)
    (url dest : String) (t : Nat) (h : env.newPageFails = false) :
    countEv isClose (try_single_download env fs url dest t).2.2 = 1 ∧
    countEv isOpen (try_single_download env fs url dest t).2.2 = 1 := by
  rcases trace_enum env fs url dest t h with h1 | h1 | h1 | h1 | h1 | h1 <;>
    rw [h1] <;> exact ⟨rfl, rfl⟩

/-- Witness for C7 at a concrete timed-out attempt. -/
theorem page_cleanup_exactly_once_witness :
    envTimeout.newPageFails = false ∧
    (countEv isClose (try_single_download envTimeout [] "u" "d.pdf" 60000).2.2 = 1 ∧
     countEv isOpen (try_single_download envTimeout [] "u" "d.pdf" 60000).2.2 = 1) :=
  ⟨rfl, page_cleanup_exactly_once envTimeout [] "u" "d.pdf" 60000 rfl⟩

/-- C8: in every attempt (timeout 60000 ms as passed by the orchestrator),
the trigger script is never evaluated before a download watcher has been
armed on the page, every watcher armed carries the 60000 ms timeout, and
whenever the trigger evaluation succeeds the attempt blocks exactly once
awaiting the download event or the timeout. -/
theorem arm_before_trigger_order (env : AttemptEnv) (fs : FS)
    (url dest : String) :
    armedBeforeTrigger (try_single_download env fs url dest 60000).2.2 false = true ∧
    armTimeoutsAre 60000 (try_single_download env fs url dest 60000).2.2 = true ∧
    (env.newPageFails = false → env.gotoFails = false → env.evalFails = false →
      countEv isAwait (try_single_download env fs url dest 60000).2.2 = 1) := by
  refine ⟨?_, ?_, ?_⟩
  · cases hnp : env.newPageFails with
    | true =>
        rw [try_eq_newPage env fs url dest 60000 hnp]
        rfl
    | false =>
        rcases trace_enum env fs url dest 60000 hnp with h1 | h1 | h1 | h1 | h1 | h1 <;>
          rw [h1] <;> rfl
  · cases hnp : env.newPageFails with
    | true =>
        rw [try_eq_newPage env fs url dest 60000 hnp]
        rfl
    | false =>
        rcases trace_enum env fs url dest 60000 hnp with h1 | h1 | h1 | h1 | h1 | h1 <;>
          rw [h1] <;> rfl
  · intro hnp hgf hef
    cases hdl : env.download with
    | none =>
        rw [try_eq_timeout env fs url dest 60000 hnp hgf hef hdl]
        rfl
    | some data =>
        cases hsf : env.saveFails with
        | true =>
            rw [try_eq_saveFail env fs url dest 60000 data hnp hgf hef hdl hsf]
            rfl
        | false =>
            cases hrf : env.readFails with
            | true =>
                rw [try_eq_readFail env fs url dest 60000 data hnp hgf hef hdl hsf hrf]
                rfl
            | false =>
                cases hsig : inline_sig_check data with
                | true =>
                    rw [try_eq_sigOk env fs url dest 60000 data hnp hgf hef hdl hsf hrf hsig]
                    rfl
                | false =>
                    rw [try_eq_sigBad env fs url dest 60000 data hnp hgf hef hdl hsf hrf hsig]
                    rfl

/-- Witness for C8 at a concrete timed-out attempt. -/
theorem arm_before_trigger_order_witness :
    armedBeforeTrigger (try_single_download envTimeout [] "u" "d.pdf" 60000).2.2 false = true ∧
    armTimeoutsAre 60000 (try_single_download envTimeout [] "u" "d.pdf" 60000).2.2 = true ∧
    (envTimeout.newPageFails = false → envTimeout.gotoFails = false →
      envTimeout.evalFails = false →
      countEv isAwait (try_single_download envTimeout [] "u" "d.pdf" 60000).2.2 = 1) :=
  arm_before_trigger_order envTimeout [] "u" "d.pdf"

/-- C5: for every processed (non-skipped) id whose two attempts run to a
terminal outcome (page creation does not raise), the orchestrator
attempts the primary URL first and attempts the fallback URL (primary
plus `?Open`) against the same destination exactly when the primary
attempt did not return success — never more than two attempts; a success
on either attempt increments the success counter by one, any other
outcome increments the miss counter by one, and exactly one of the two
counters changes. -/
theorem attempt_policy_counters (env : IdEnv) (year : Int)
    (sid outdir : String) (fs : FS) (ok miss : Nat)
    (h1 : env.a1.newPageFails = false) (h2 : env.a2.newPageFails = false)
    (hs : skip_check fs (destPath outdir sid) = false) :
    ∃ fs' ok' miss' atts tr,
      processId env year sid outdir fs ok miss =
        Except.ok (fs', ok', miss', atts, tr) ∧
      (atts = [build_url year sid] ∨
        atts = [build_url year sid, fallback_url (build_url year sid)]) ∧
      (atts = [build_url year sid] ↔
        (try_single_download env.a1 fs (build_url year sid)
            (destPath outdir sid) 60000).1 = Except.ok true) ∧
      ((ok' = ok + 1 ∧ miss' = miss) ∨ (ok' = ok ∧ miss' = miss + 1)) ∧
      (ok' = ok + 1 ↔
        ((try_single_download env.a1 fs (build_url year sid)
            (destPath outdir sid) 60000).1 = Except.ok true ∨
         (try_single_download env.a2
            (try_single_download env.a1 fs (build_url year sid)
              (destPath outdir sid) 60000).2.1
            (fallback_url (build_url year sid)) (destPath outdir sid)
            60000).1 = Except.ok true)) := by
  obtain ⟨b1, fs1, tr1, e1⟩ :=
    attempt_total env.a1 fs (build_url year sid) (destPath outdir sid) 60000 h1
  obtain ⟨b2, fs2, tr2, e2⟩ :=
    attempt_total env.a2 fs1 (fallback_url (build_url year sid))
      (destPath outdir sid) 60000 h2
  cases b1 with
  | true =>
      refine ⟨fs1, ok + 1, miss, [build_url year sid], tr1, ?_, Or.inl rfl, ?_, Or.inl ⟨rfl, rfl⟩, ?_⟩
      · simp [processId, hs, e1]
      · simp [e1]
      · simp [e1]
  | false =>
      cases b2 with
      | true =>
          refine ⟨fs2, ok + 1, miss,
            [build_url year sid, fallback_url (build_url year sid)],
            tr1 ++ tr2, ?_, Or.inr rfl, ?_, Or.inl ⟨rfl, rfl⟩, ?_⟩
          · simp [processId, hs, e1, e2]
          · simp [e1]
          · simp [e1, e2]
      | false =>
          refine ⟨fs2, ok, miss + 1,
            [build_url year sid, fallback_url (build_url year sid)],
            tr1 ++ tr2, ?_, Or.inr rfl, ?_, Or.inr ⟨rfl, rfl⟩, ?_⟩
          · simp [processId, hs, e1, e2]
          · simp [e1]
          · simp [e1, e2]

/-- Witness for C5 at a concrete id whose two attempts both time out. -/
theorem attempt_policy_counters_witness :
    idEnvTimeout.a1.newPageFails = false ∧
    idEnvTimeout.a2.newPageFails = false ∧
    skip_check [] (destPath "out" "001") = false ∧
    (∃ fs' ok' miss' atts tr,
      processId idEnvTimeout 2024 "001" "out" [] 0 0 =
        Except.ok (fs', ok', miss', atts, tr) ∧
      (atts = [build_url 2024 "001"] ∨
        atts = [build_url 2024 "001", fallback_url (build_url 2024 "001")]) ∧
      (atts = [build_url 2024 "001"] ↔
        (try_single_download idEnvTimeout.a1 [] (build_url 2024 "001")
            (destPath "out" "001") 60000).1 = Except.ok true) ∧
      ((ok' = 0 + 1 ∧ miss' = 0) ∨ (ok' = 0 ∧ miss' = 0 + 1)) ∧
      (ok' = 0 + 1 ↔
        ((try_single_download idEnvTimeout.a1 [] (build_url 2024 "001")
            (destPath "out" "001") 60000).1 = Except.ok true ∨
         (try_single_download idEnvTimeout.a2
            (try_single_download idEnvTimeout.a1 [] (build_url 2024 "001")
              (destPath "out" "001") 60000).2.1
            (fallback_url (build_url 2024 "001")) (destPath "out" "001")
            60000).1 = Except.ok true))) :=
  ⟨rfl, rfl, rfl,
    attempt_policy_counters idEnvTimeout 2024 "001" "out" [] 0 0 rfl rfl rfl⟩

/-- C6 amended: the skip rule holds exactly as claimed — an id whose
destination already holds a validator-accepted file strictly larger than
200 bytes is skipped with no attempt, no write and no counter change —
and a second batch run performs no attempts and no writes provided every
id's destination holds such an over-threshold valid file.  The original
claim's unrestricted consequence is false: an id whose first run stored a
valid file of at most 200 bytes (or stored nothing) is not skip-eligible
and is re-attempted, and may be re-written, on the second run (see the
counterexample). -/
theorem skip_rule_and_restricted_idempotence (env : IdEnv)
    (envOf : Nat → IdEnv) (year : Int) (sid outdir : String) (w : Nat)
    (ids : List Nat) (fs : FS) (ok miss : Nat) :
    (skip_check fs (destPath outdir sid) = true →
      processId env year sid outdir fs ok miss =
        Except.ok (fs, ok, miss, [], [])) ∧
    ((∀ i ∈ ids, skip_check fs (destPath outdir (zfill w i)) = true) →
      runBatch envOf year w outdir ids fs ok miss =
        Except.ok (fs, ok, miss, [])) := by
  constructor
  · intro h
    simp [processId, h]
  · induction ids with
    | nil => intro _; rfl
    | cons i rest ih =>
        intro hall
        have hi : skip_check fs (destPath outdir (zfill w i)) = true :=
          hall i (List.mem_cons_self i rest)
        have hrest := ih fun j hj => hall j (List.mem_cons_of_mem i hj)
        simp [runBatch, processId, hi, hrest]

set_option maxRecDepth 8192 in
/-- Witness for C6 amended: a one-id batch over a destination already
holding a valid over-threshold file does nothing. -/
theorem skip_rule_and_restricted_idempotence_witness :
    skip_check fsBig (destPath "out" (zfill 3 1)) = true ∧
    runBatch constEnvTimeout 2024 3 "out" [1] fsBig 0 0 =
      Except.ok (fsBig, 0, 0, []) :=
  ⟨rfl,
    (skip_rule_and_restricted_idempotence idEnvTimeout constEnvTimeout 2024
        "001" "out" 3 [1] fsBig 0 0).2
      (fun i hi => by
        rw [List.mem_singleton] at hi
        subst hi
        rfl)⟩
